import Mathlib

/-!
Shallow embedding of the infection-risk core (`src/backend/src/ml/scoring.py`,
`src/backend/src/ml/features.py`, `src/backend/src/ml/registry.py`).

Python floats are modelled as rationals (ℚ); Python dicts of weights as
partial maps `String → Option ℚ`; the external OpenCV library calls
(GrabCut, color conversion, blur, Otsu threshold, Canny, morphology) are
modelled as abstract operations collected in a `Cv` structure, while every
line of the repository's own logic (mask composition, uint8 arithmetic,
masked fractions, accumulation, clamping, thresholds, note/explanation
synthesis) is translated directly from the source.
-/

namespace InfectionRisk

/-- Container for heuristic feature signals (features.py, `FeatureSignals`). -/
structure FeatureSignals where
  periwound_redness : ℚ
  exudate_proxy : ℚ
  dark_tissue_proxy : ℚ
  swelling_proxy : ℚ
  deriving DecidableEq, Repr

/-- Source `FeatureSignals.as_dict`: insertion-ordered dict as an association list. -/
def FeatureSignals.as_dict (s : FeatureSignals) : List (String × ℚ) :=
  [("periwound_redness", s.periwound_redness),
   ("exudate_proxy", s.exudate_proxy),
   ("dark_tissue_proxy", s.dark_tissue_proxy),
   ("swelling_proxy", s.swelling_proxy)]

/-- Container for user-reported symptom inputs (scoring.py, `SymptomInputs`). -/
structure SymptomInputs where
  reported_pain : Bool
  reported_warmth : Bool
  reported_swelling : Bool
  reported_drainage : Bool
  reported_spreading_redness : Bool
  deriving DecidableEq, Repr

/-- Source `SymptomInputs.as_dict`: booleans become 1.0 / 0.0. -/
def SymptomInputs.as_dict (s : SymptomInputs) : List (String × ℚ) :=
  [("reported_pain", if s.reported_pain then 1 else 0),
   ("reported_warmth", if s.reported_warmth then 1 else 0),
   ("reported_swelling", if s.reported_swelling then 1 else 0),
   ("reported_drainage", if s.reported_drainage then 1 else 0),
   ("reported_spreading_redness", if s.reported_spreading_redness then 1 else 0)]

/-- One contributing signal (scoring.py, `SignalDetail`). -/
structure SignalDetail where
  name : String
  value : ℚ
  weight : ℚ
  note : String
  deriving DecidableEq, Repr

/-- Final scorer output (scoring.py, `RiskResult`). -/
structure RiskResult where
  risk_score : ℚ
  risk_level : String
  signals : List SignalDetail
  explanation : String
  disclaimer : String
  recommended_next_steps : List String
  deriving DecidableEq, Repr

/-- The scorer's weight dict `self.weights`, modelled as a partial map. -/
abbrev WeightTable := String → Option ℚ

/-- Python `dict.get(key, default)`. -/
def dictGet (w : WeightTable) (key : String) (default : ℚ) : ℚ :=
  (w key).getD default

/-- Round `x` to the nearest integer, ties to even (the rounding used when
Python formats a value to two decimal places). -/
def roundHalfEven (x : ℚ) : ℤ :=
  let n : ℤ := x.floor
  let f : ℚ := x - (n : ℚ)
  if f > 1/2 then n + 1
  else if f < 1/2 then n
  else if n % 2 = 0 then n else n + 1

/-- Modelled from the source's f-string `value:.2f`: render a rational with
exactly two digits after the decimal point. -/
def format2 (q : ℚ) : String :=
  let n : ℤ := roundHalfEven (q * 100)
  let sign := if n < 0 then "-" else ""
  let a := n.natAbs
  let fp := a % 100
  let fs := if fp < 10 then "0" ++ toString fp else toString fp
  sign ++ toString (a / 100) ++ "." ++ fs

/-- The `notes` dict inside `RiskScorer._signal_note`, with its
`Signal observed in the image.` default. -/
def noteBase (name : String) : String :=
  if name = "periwound_redness" then
    "Higher redness near the wound boundary may be associated with irritation."
  else if name = "exudate_proxy" then
    "Yellow/green coloration can be a proxy for exudate-like appearance."
  else if name = "dark_tissue_proxy" then
    "Darker regions may indicate non-viable tissue presence."
  else if name = "swelling_proxy" then
    "Edge sharpness can be a proxy for localized swelling cues."
  else if name = "reported_pain" then
    "Pain or tenderness near the wound can be a reported symptom of irritation."
  else if name = "reported_warmth" then
    "A warm or hot sensation around the wound can indicate inflammation."
  else if name = "reported_swelling" then
    "Swelling around the wound can be a sign of irritation or inflammation."
  else if name = "reported_drainage" then
    "Drainage or pus-like fluid can be a reported sign of infection."
  else if name = "reported_spreading_redness" then
    "Redness spreading beyond the wound may indicate inflammation."
  else "Signal observed in the image."

/-- Source `RiskScorer._signal_note`. -/
def RiskScorer._signal_note (name : String) (value : ℚ) : String :=
  noteBase name ++ " Signal intensity: " ++ format2 value ++ "."

/-- Source `RiskScorer._risk_level`. -/
def RiskScorer._risk_level (score : ℚ) : String :=
  if score ≥ 66/100 then "high"
  else if score ≥ 33/100 then "medium"
  else "low"

/-- Source `RiskScorer._visual_signal_names`. -/
def RiskScorer._visual_signal_names : List String :=
  ["periwound_redness", "exudate_proxy", "dark_tissue_proxy", "swelling_proxy"]

/-- Source `RiskScorer._symptom_signal_names`. -/
def RiskScorer._symptom_signal_names : List String :=
  ["reported_pain", "reported_warmth", "reported_swelling", "reported_drainage",
   "reported_spreading_redness"]

/-- Python dict comprehension plus `.get(name, 0.0)` in `_visual_summary`:
the value of the last detail carrying `name`, defaulting to 0. -/
def detailValue (details : List SignalDetail) (name : String) : ℚ :=
  ((details.reverse.find? (fun d => d.name == name)).map SignalDetail.value).getD 0

/-- Source `RiskScorer._visual_summary`. -/
def RiskScorer._visual_summary (details : List SignalDetail) : String :=
  let cues : List String :=
    (if detailValue details "periwound_redness" ≥ 35/100 then
      ["notable redness around the wound edges"] else []) ++
    (if detailValue details "exudate_proxy" ≥ 25/100 then
      ["yellow/green drainage or pus-like coloration"] else []) ++
    (if detailValue details "dark_tissue_proxy" ≥ 2/10 then
      ["darkened tissue inside the wound"] else []) ++
    (if detailValue details "swelling_proxy" ≥ 2/10 then
      ["edge texture changes consistent with swelling"] else [])
  if cues ≠ [] then "Visual cues suggest " ++ String.intercalate ", " cues ++ "."
  else "No strong visual cues like redness, drainage, or swelling were detected."

/-- The `symptom_phrases` dict in `_symptom_summary`, with its
underscores-to-spaces default. -/
def symptomPhrase (name : String) : String :=
  if name = "reported_pain" then "pain or tenderness"
  else if name = "reported_warmth" then "warmth around the wound"
  else if name = "reported_swelling" then "swelling"
  else if name = "reported_drainage" then "drainage/pus"
  else if name = "reported_spreading_redness" then "spreading redness"
  else String.intercalate " " (name.splitOn "_")

/-- Source `RiskScorer._symptom_summary`. -/
def RiskScorer._symptom_summary (details : List SignalDetail) : String :=
  if details = [] then "No concerning symptoms were reported in the questionnaire."
  else "Reported symptoms include " ++
    String.intercalate ", " (details.map (fun d => symptomPhrase d.name)) ++ "."

/-- Source `RiskScorer._explanation`. -/
def RiskScorer._explanation (details : List SignalDetail) (level : String) : String :=
  let visual_details := details.filter (fun d => RiskScorer._visual_signal_names.contains d.name)
  let symptom_details := details.filter
    (fun d => RiskScorer._symptom_signal_names.contains d.name && decide (d.value > 1/2))
  "Estimated risk level: " ++ level ++ ". " ++
    RiskScorer._visual_summary visual_details ++ " " ++
    RiskScorer._symptom_summary symptom_details ++
    " This is a triage support estimate, not a diagnosis."

/-- Source `RiskScorer._recommended_steps`. -/
def RiskScorer._recommended_steps (level : String) : List String :=
  if level = "high" then
    ["Consider scheduling a clinical check if symptoms persist or worsen.",
     "Monitor for changes such as increasing redness, swelling, or drainage."]
  else if level = "medium" then
    ["Continue monitoring and recheck if the appearance changes.",
     "Seek clinical advice if you are concerned about progression."]
  else
    ["Keep monitoring for noticeable changes over time.",
     "If you have concerns, seek clinical guidance."]

/-- The fixed disclaimer string built inline in `RiskScorer.score`. -/
def disclaimerText : String :=
  "This output is a non-diagnostic risk estimation for triage support only. " ++
  "It cannot diagnose infection and should not replace clinical evaluation."

/-- One iteration of the accumulation loops in `RiskScorer.score`: add the
weighted value and append the `SignalDetail`. -/
def RiskScorer.scoreStep (w : WeightTable) (acc : ℚ × List SignalDetail)
    (item : String × ℚ) : ℚ × List SignalDetail :=
  let weight := dictGet w item.1 0
  (acc.1 + weight * item.2,
   acc.2 ++ [{ name := item.1, value := item.2, weight := weight,
               note := RiskScorer._signal_note item.1 item.2 }])

/-- Source `RiskScorer.score`: accumulate from `weights.get("bias", 0.0)` over
the visual signals and, when supplied, the symptom flags; clamp; classify;
synthesize the explanation, disclaimer and next steps. -/
def RiskScorer.score (w : WeightTable) (signals : FeatureSignals)
    (symptoms : Option SymptomInputs) : RiskResult :=
  let init : ℚ × List SignalDetail := (dictGet w "bias" 0, [])
  let afterVisual := signals.as_dict.foldl (RiskScorer.scoreStep w) init
  let afterAll :=
    match symptoms with
    | none => afterVisual
    | some sy => sy.as_dict.foldl (RiskScorer.scoreStep w) afterVisual
  let risk_score := min (max afterAll.1 0) 1
  let risk_level := RiskScorer._risk_level risk_score
  { risk_score := risk_score
    risk_level := risk_level
    signals := afterAll.2
    explanation := RiskScorer._explanation afterAll.2 risk_level
    disclaimer := disclaimerText
    recommended_next_steps := RiskScorer._recommended_steps risk_level }

/-- A BGR pixel of the input image (three 8-bit channels). -/
structure BgrPixel where
  b : ℕ
  g : ℕ
  r : ℕ
  deriving DecidableEq, Repr

/-- The decoded image, flattened to a pixel list. -/
abbrev Image := List BgrPixel

/-- An HSV pixel as produced by the external BGR→HSV conversion
(hue on 0–179, saturation and value on 0–255). -/
structure HsvPixel where
  h : ℕ
  s : ℕ
  v : ℕ
  deriving DecidableEq, Repr

/-- A numpy uint8 array used as a mask or label map, flattened. -/
abbrev Mask := List ℕ

/-- The external library's error type (`cv2.error`). -/
inductive CvError where
  | err
  deriving DecidableEq, Repr

/-- Abstract interface to the external OpenCV operations that features.py
calls; the repository treats them as black boxes, so they are parameters of
the embedding.  `grabCutLabels` models `cv2.grabCut` on the fixed central
rectangle, returning the per-pixel GC label map or raising `cv2.error`;
`morphClose`, `dilate` and `erode` take the square kernel size; `canny`
takes the two hysteresis thresholds. -/
structure Cv where
  grabCutLabels : Image → Except CvError Mask
  morphClose : Mask → ℕ → Mask
  dilate : Mask → ℕ → Mask
  erode : Mask → ℕ → Mask
  bgr2hsv : Image → List HsvPixel
  bgr2gray : Image → List ℕ
  gaussianBlur : List ℕ → ℕ → List ℕ
  otsuThreshold : List ℕ → ℕ
  canny : List ℕ → ℕ → ℕ → List ℕ

/-- OpenCV constant `cv2.GC_FGD`. -/
def GC_FGD : ℕ := 1

/-- OpenCV constant `cv2.GC_PR_FGD`. -/
def GC_PR_FGD : ℕ := 3

/-- Source `FeatureExtractor._fallback_otsu`: grayscale, Gaussian blur,
global Otsu threshold, and `(thresh == 0)` — with `THRESH_BINARY` the
destination is 0 exactly where the blurred value is at or below the
threshold, so the darker side becomes the mask. -/
def FeatureExtractor._fallback_otsu (cv : Cv) (image_bgr : Image) : Mask :=
  let gray := cv.bgr2gray image_bgr
  let blur := cv.gaussianBlur gray 5
  let t := cv.otsuThreshold blur
  blur.map (fun p => if p ≤ t then 1 else 0)

/-- Source `FeatureExtractor._segment_wound`: try GrabCut and turn
`(mask == GC_FGD) | (mask == GC_PR_FGD)` into a 0/1 mask; on `cv2.error`
use the Otsu fallback; finally apply the 5×5 morphological closing. -/
def FeatureExtractor._segment_wound (cv : Cv) (image_bgr : Image) : Mask :=
  let wound_mask :=
    match cv.grabCutLabels image_bgr with
    | .ok labels => labels.map (fun m => if m = GC_FGD ∨ m = GC_PR_FGD then 1 else 0)
    | .error _ => FeatureExtractor._fallback_otsu cv image_bgr
  cv.morphClose wound_mask 5

/-- Numpy uint8 subtraction (wraps modulo 256); operands are below 256. -/
def uint8Sub (a b : ℕ) : ℕ := (a + 256 - b) % 256

/-- Source `FeatureExtractor._periwound_ring`: dilate and erode with the
`ring_width` kernel, then `np.clip(dilated - eroded, 0, 1)` on uint8. -/
def FeatureExtractor._periwound_ring (cv : Cv) (wound_mask : Mask)
    (ring_width : ℕ) : Mask :=
  let dilated := cv.dilate wound_mask ring_width
  let eroded := cv.erode wound_mask ring_width
  (dilated.zip eroded).map (fun de => min (uint8Sub de.1 de.2) 1)

/-- Numpy boolean indexing plus mean with the source's empty-region guard:
`region = mask.astype(bool); if region.sum() == 0: return 0.0;
return pred[region].mean()`. -/
def maskedMean {α : Type} (pred : α → Bool) (values : List α)
    (region_mask : Mask) : ℚ :=
  let region := ((values.zip region_mask).filter (fun pm => pm.2 != 0)).map Prod.fst
  if region.length = 0 then 0
  else (region.countP pred : ℚ) / (region.length : ℚ)

/-- The red-pixel predicate in `_periwound_redness`:
`((h < 10) | (h > 160)) & (s > 80)`. -/
def redPixel (p : HsvPixel) : Bool :=
  (decide (p.h < 10) || decide (p.h > 160)) && decide (p.s > 80)

/-- The exudate predicate in `_exudate_proxy`:
`(h > 20) & (h < 90) & (s > 60) & (v > 80)`. -/
def exudatePixel (p : HsvPixel) : Bool :=
  decide (p.h > 20) && decide (p.h < 90) && decide (p.s > 60) && decide (p.v > 80)

/-- The dark-pixel predicate in `_dark_tissue_proxy`: `v < 40`. -/
def darkPixel (p : HsvPixel) : Bool :=
  decide (p.v < 40)

/-- Source `FeatureExtractor._periwound_redness`. -/
def FeatureExtractor._periwound_redness (cv : Cv) (image_bgr : Image)
    (periwound_mask : Mask) : ℚ :=
  maskedMean redPixel (cv.bgr2hsv image_bgr) periwound_mask

/-- Source `FeatureExtractor._exudate_proxy`. -/
def FeatureExtractor._exudate_proxy (cv : Cv) (image_bgr : Image)
    (wound_mask : Mask) : ℚ :=
  maskedMean exudatePixel (cv.bgr2hsv image_bgr) wound_mask

/-- Source `FeatureExtractor._dark_tissue_proxy`. -/
def FeatureExtractor._dark_tissue_proxy (cv : Cv) (image_bgr : Image)
    (wound_mask : Mask) : ℚ :=
  maskedMean darkPixel (cv.bgr2hsv image_bgr) wound_mask

/-- Source `FeatureExtractor._swelling_proxy`: Canny with thresholds 60/120
on the grayscale image, then the fraction of ring pixels with `edges > 0`. -/
def FeatureExtractor._swelling_proxy (cv : Cv) (image_bgr : Image)
    (periwound_mask : Mask) : ℚ :=
  let gray := cv.bgr2gray image_bgr
  let edges := cv.canny gray 60 120
  maskedMean (fun e => decide (e > 0)) edges periwound_mask

/-- Source `FeatureExtractor.extract`. -/
def FeatureExtractor.extract (cv : Cv) (image_bgr : Image) : FeatureSignals :=
  let wound_mask := FeatureExtractor._segment_wound cv image_bgr
  let periwound_mask := FeatureExtractor._periwound_ring cv wound_mask 18
  { periwound_redness := FeatureExtractor._periwound_redness cv image_bgr periwound_mask
    exudate_proxy := FeatureExtractor._exudate_proxy cv image_bgr wound_mask
    dark_tissue_proxy := FeatureExtractor._dark_tissue_proxy cv image_bgr wound_mask
    swelling_proxy := FeatureExtractor._swelling_proxy cv image_bgr periwound_mask }

/-- Source `HeuristicRiskModel.predict` (registry.py): extract the signals
and score them with no symptoms (the `symptoms` parameter keeps its `None`
default). -/
def HeuristicRiskModel.predict (cv : Cv) (w : WeightTable) (image_bgr : Image) :
    RiskResult :=
  RiskScorer.score w (FeatureExtractor.extract cv image_bgr) none

/-- A YAML scalar as produced by `yaml.safe_load` for a weight value. -/
inductive YamlValue where
  | num (q : ℚ)
  | str (s : String)
  | bool (b : Bool)
  | null
  deriving DecidableEq, Repr

/-- Digits of a numeric literal to a natural number. -/
def digitsToNat (l : List Char) : ℕ :=
  l.foldl (fun a c => 10 * a + (c.toNat - 48)) 0

/-- Strip leading and trailing whitespace from a character list. -/
def stripChars (l : List Char) : List Char :=
  ((l.dropWhile Char.isWhitespace).reverse.dropWhile Char.isWhitespace).reverse

/-- Modelled from the spec: Python `float(...)` applied to an unsigned
string — a finite decimal literal `digits`, `digits.`, `.digits` or
`digits.digits`; anything else raises `ValueError` (modelled as `none`).
The exotic accepted forms (exponents, `inf`, `nan`) are omitted; the
claims only need that numeric literals are accepted and non-numeric text
is rejected. -/
def parseDecimalChars (l : List Char) : Option ℚ :=
  let intPart := l.takeWhile (fun c => c != '.')
  let rest := l.drop intPart.length
  match rest with
  | [] =>
    if !intPart.isEmpty && intPart.all Char.isDigit then
      some ((digitsToNat intPart : ℚ))
    else none
  | c :: frac =>
    if c == '.' && intPart.all Char.isDigit && frac.all Char.isDigit &&
        (!intPart.isEmpty || !frac.isEmpty) then
      some ((digitsToNat intPart : ℚ) + (digitsToNat frac : ℚ) / ((10 : ℚ) ^ frac.length))
    else none

/-- Modelled from the spec: Python `float(...)` on a string — strip
whitespace, then an optional sign and a decimal literal. -/
def pyFloatOfString (s : String) : Option ℚ :=
  match stripChars s.toList with
  | '-' :: rest => (parseDecimalChars rest).map Neg.neg
  | '+' :: rest => parseDecimalChars rest
  | t => parseDecimalChars t

/-- Python `float(value)` on a YAML scalar: numbers pass through, booleans
coerce to 1.0/0.0, numeric strings parse, anything else raises
(`none`). -/
def pyFloat : YamlValue → Option ℚ
  | .num q => some q
  | .bool b => some (if b then 1 else 0)
  | .str s => pyFloatOfString s
  | .null => none

/-- Source `RiskScorer._load_weights` after the external file read and YAML
parse: the dict comprehension `{key: float(value) for key, value in
data.items()}`, which raises at the first non-coercible value; the raise is
modelled as `Except.error` carrying the offending key. -/
def RiskScorer._load_weights : List (String × YamlValue) → Except String (List (String × ℚ))
  | [] => .ok []
  | (k, v) :: rest =>
    match pyFloat v with
    | none => .error k
    | some q => (RiskScorer._load_weights rest).map (fun t => (k, q) :: t)

/-- Numeric value of a reported symptom flag (`1.0 if flag else 0.0`). -/
def symptomVal (b : Bool) : ℚ := if b then 1 else 0

/-- The raw weighted accumulator of `RiskScorer.score`, written as the
explicit sum: bias, plus weight × value over the four visual signals, plus
— when symptoms are supplied — weight × value over the five flags. -/
def accumulator (w : WeightTable) (s : FeatureSignals)
    (symptoms : Option SymptomInputs) : ℚ :=
  dictGet w "bias" 0
    + dictGet w "periwound_redness" 0 * s.periwound_redness
    + dictGet w "exudate_proxy" 0 * s.exudate_proxy
    + dictGet w "dark_tissue_proxy" 0 * s.dark_tissue_proxy
    + dictGet w "swelling_proxy" 0 * s.swelling_proxy
    + match symptoms with
      | none => 0
      | some sy =>
        dictGet w "reported_pain" 0 * symptomVal sy.reported_pain
          + dictGet w "reported_warmth" 0 * symptomVal sy.reported_warmth
          + dictGet w "reported_swelling" 0 * symptomVal sy.reported_swelling
          + dictGet w "reported_drainage" 0 * symptomVal sy.reported_drainage
          + dictGet w "reported_spreading_redness" 0 * symptomVal sy.reported_spreading_redness

lemma score_risk_score_eq (w : WeightTable) (s : FeatureSignals)
    (sy : Option SymptomInputs) :
    (RiskScorer.score w s sy).risk_score = min (max (accumulator w s sy) 0) 1 := by
  cases sy <;>
    simp only [RiskScorer.score, RiskScorer.scoreStep, FeatureSignals.as_dict,
      SymptomInputs.as_dict, accumulator, symptomVal, List.foldl] <;>
    ring_nf

lemma score_risk_level_eq (w : WeightTable) (s : FeatureSignals)
    (sy : Option SymptomInputs) :
    (RiskScorer.score w s sy).risk_level
      = RiskScorer._risk_level (RiskScorer.score w s sy).risk_score := rfl

lemma concrete_bias_clamp :
    (RiskScorer.score (fun k => if k = "bias" then some 5 else none)
      ⟨0, 0, 0, 0⟩ none).risk_score = 1 := by
  rw [score_risk_score_eq]
  norm_num [accumulator, dictGet, min_def, max_def]

lemma concrete_bias_level :
    (RiskScorer.score (fun k => if k = "bias" then some 5 else none)
      ⟨0, 0, 0, 0⟩ none).risk_level = "high" := by
  rw [score_risk_level_eq, concrete_bias_clamp]
  norm_num [RiskScorer._risk_level]

lemma clamp_nonneg (a : ℚ) : 0 ≤ min (max a 0) 1 :=
  le_min (le_max_right a 0) zero_le_one

lemma clamp_le_one (a : ℚ) : min (max a 0) 1 ≤ 1 :=
  min_le_right _ _

lemma clamp_mono {a b : ℚ} (h : a ≤ b) :
    min (max a 0) 1 ≤ min (max b 0) 1 :=
  min_le_min (max_le_max h le_rfl) le_rfl

/-- C1: for every signals/symptoms/weight combination the returned
`risk_score` equals `min(max(accumulator, 0), 1)` and hence lies in
`[0, 1]`; with bias 5 and all signals 0 it is exactly 1 and the level is
"high". -/
theorem risk_score_clamp_invariant (w : WeightTable) (signals : FeatureSignals)
    (symptoms : Option SymptomInputs) :
    (RiskScorer.score w signals symptoms).risk_score
        = min (max (accumulator w signals symptoms) 0) 1
    ∧ 0 ≤ (RiskScorer.score w signals symptoms).risk_score
    ∧ (RiskScorer.score w signals symptoms).risk_score ≤ 1
    ∧ (RiskScorer.score (fun k => if k = "bias" then some 5 else none)
        ⟨0, 0, 0, 0⟩ none).risk_score = 1
    ∧ (RiskScorer.score (fun k => if k = "bias" then some 5 else none)
        ⟨0, 0, 0, 0⟩ none).risk_level = "high" := by
  refine ⟨score_risk_score_eq w signals symptoms, ?_, ?_,
    concrete_bias_clamp, concrete_bias_level⟩
  · rw [score_risk_score_eq]
    exact clamp_nonneg _
  · rw [score_risk_score_eq]
    exact clamp_le_one _

lemma risk_level_low_iff (s : ℚ) :
    RiskScorer._risk_level s = "low" ↔ s < 33/100 := by
  unfold RiskScorer._risk_level
  split_ifs with ha hb
  · exact iff_of_false (by decide) (by linarith)
  · exact iff_of_false (by decide) (by linarith)
  · exact iff_of_true rfl (not_le.mp hb)

lemma risk_level_medium_iff (s : ℚ) :
    RiskScorer._risk_level s = "medium" ↔ (33/100 ≤ s ∧ s < 66/100) := by
  unfold RiskScorer._risk_level
  split_ifs with ha hb
  · exact iff_of_false (by decide) (by rintro ⟨h1, h2⟩; linarith)
  · exact iff_of_true rfl ⟨hb, not_le.mp ha⟩
  · exact iff_of_false (by decide) (by rintro ⟨h1, h2⟩; exact hb h1)

lemma risk_level_high_iff (s : ℚ) :
    RiskScorer._risk_level s = "high" ↔ 66/100 ≤ s := by
  unfold RiskScorer._risk_level
  split_ifs with ha hb
  · exact iff_of_true rfl ha
  · exact iff_of_false (by decide) ha
  · exact iff_of_false (by decide) ha

/-- C2: on `[0, 1]` the level is "low" iff the score is below 0.33,
"medium" iff it is in `[0.33, 0.66)`, "high" iff it is at least 0.66; the
boundary scores 0.33 and 0.66 classify as "medium" and "high"; and
`RiskScorer.score` classifies exactly by `_risk_level` of its clamped
score. -/
theorem risk_level_threshold_law (s : ℚ) (h0 : 0 ≤ s) (h1 : s ≤ 1) :
    (RiskScorer._risk_level s = "low" ↔ s < 33/100)
    ∧ (RiskScorer._risk_level s = "medium" ↔ (33/100 ≤ s ∧ s < 66/100))
    ∧ (RiskScorer._risk_level s = "high" ↔ 66/100 ≤ s)
    ∧ RiskScorer._risk_level (33/100) = "medium"
    ∧ RiskScorer._risk_level (66/100) = "high"
    ∧ (∀ (w : WeightTable) (sig : FeatureSignals) (sy : Option SymptomInputs),
        (RiskScorer.score w sig sy).risk_level
          = RiskScorer._risk_level (RiskScorer.score w sig sy).risk_score) :=
  ⟨risk_level_low_iff s, risk_level_medium_iff s, risk_level_high_iff s,
   by norm_num [RiskScorer._risk_level], by norm_num [RiskScorer._risk_level],
   fun w sig sy => rfl⟩

/-- Witness for C2 at the concrete boundary score 0.33. -/
theorem risk_level_threshold_law_witness :
    RiskScorer._risk_level (33/100) = "medium"
    ∧ (RiskScorer._risk_level (33/100) = "medium"
        ↔ (33/100 ≤ (33/100 : ℚ) ∧ (33/100 : ℚ) < 66/100)) :=
  ⟨(risk_level_threshold_law (33/100) (by norm_num) (by norm_num)).2.2.2.1,
   (risk_level_threshold_law (33/100) (by norm_num) (by norm_num)).2.1⟩

lemma score_signals_none (w : WeightTable) (s : FeatureSignals) :
    (RiskScorer.score w s none).signals =
      [{ name := "periwound_redness", value := s.periwound_redness,
         weight := dictGet w "periwound_redness" 0,
         note := RiskScorer._signal_note "periwound_redness" s.periwound_redness },
       { name := "exudate_proxy", value := s.exudate_proxy,
         weight := dictGet w "exudate_proxy" 0,
         note := RiskScorer._signal_note "exudate_proxy" s.exudate_proxy },
       { name := "dark_tissue_proxy", value := s.dark_tissue_proxy,
         weight := dictGet w "dark_tissue_proxy" 0,
         note := RiskScorer._signal_note "dark_tissue_proxy" s.dark_tissue_proxy },
       { name := "swelling_proxy", value := s.swelling_proxy,
         weight := dictGet w "swelling_proxy" 0,
         note := RiskScorer._signal_note "swelling_proxy" s.swelling_proxy }] := by
  simp [RiskScorer.score, RiskScorer.scoreStep, FeatureSignals.as_dict]

lemma score_signals_some (w : WeightTable) (s : FeatureSignals) (sy : SymptomInputs) :
    (RiskScorer.score w s (some sy)).signals =
      [{ name := "periwound_redness", value := s.periwound_redness,
         weight := dictGet w "periwound_redness" 0,
         note := RiskScorer._signal_note "periwound_redness" s.periwound_redness },
       { name := "exudate_proxy", value := s.exudate_proxy,
         weight := dictGet w "exudate_proxy" 0,
         note := RiskScorer._signal_note "exudate_proxy" s.exudate_proxy },
       { name := "dark_tissue_proxy", value := s.dark_tissue_proxy,
         weight := dictGet w "dark_tissue_proxy" 0,
         note := RiskScorer._signal_note "dark_tissue_proxy" s.dark_tissue_proxy },
       { name := "swelling_proxy", value := s.swelling_proxy,
         weight := dictGet w "swelling_proxy" 0,
         note := RiskScorer._signal_note "swelling_proxy" s.swelling_proxy },
       { name := "reported_pain", value := symptomVal sy.reported_pain,
         weight := dictGet w "reported_pain" 0,
         note := RiskScorer._signal_note "reported_pain" (symptomVal sy.reported_pain) },
       { name := "reported_warmth", value := symptomVal sy.reported_warmth,
         weight := dictGet w "reported_warmth" 0,
         note := RiskScorer._signal_note "reported_warmth" (symptomVal sy.reported_warmth) },
       { name := "reported_swelling", value := symptomVal sy.reported_swelling,
         weight := dictGet w "reported_swelling" 0,
         note := RiskScorer._signal_note "reported_swelling" (symptomVal sy.reported_swelling) },
       { name := "reported_drainage", value := symptomVal sy.reported_drainage,
         weight := dictGet w "reported_drainage" 0,
         note := RiskScorer._signal_note "reported_drainage" (symptomVal sy.reported_drainage) },
       { name := "reported_spreading_redness", value := symptomVal sy.reported_spreading_redness,
         weight := dictGet w "reported_spreading_redness" 0,
         note := RiskScorer._signal_note "reported_spreading_redness"
           (symptomVal sy.reported_spreading_redness) }] := by
  simp [RiskScorer.score, RiskScorer.scoreStep, FeatureSignals.as_dict,
    SymptomInputs.as_dict, symptomVal]

/-- The weight table of the spec's 0.47 scenario. -/
def w47 : WeightTable := fun k =>
  if k = "bias" then some 0
  else if k = "periwound_redness" then some (5/10)
  else if k = "exudate_proxy" then some (3/10)
  else if k = "dark_tissue_proxy" then some (1/10)
  else if k = "swelling_proxy" then some (1/10)
  else none

lemma concrete_scenario_score :
    (RiskScorer.score w47 ⟨9/10, 1/10, 1/10, 1/10⟩ none).risk_score = 1/2 := by
  rw [score_risk_score_eq]
  simp [accumulator, dictGet, w47]
  norm_num [min_def, max_def]

lemma concrete_scenario_level :
    (RiskScorer.score w47 ⟨9/10, 1/10, 1/10, 1/10⟩ none).risk_level = "medium" := by
  rw [score_risk_level_eq, concrete_scenario_score]
  norm_num [RiskScorer._risk_level]

/-- Counterexample for C3 as stated: on the spec's concrete scenario —
signals (0.9, 0.1, 0.1, 0.1), no symptoms, weights bias 0,
redness 0.5, exudate 0.3, dark 0.1, swelling 0.1 — the accumulator is
0.45 + 0.03 + 0.01 + 0.01 = 0.50, so the score is 0.50, not the 0.47 the
spec computes. -/
theorem concrete_scenario_not_47 :
    (RiskScorer.score w47 ⟨9/10, 1/10, 1/10, 1/10⟩ none).risk_score ≠ 47/100
    ∧ (RiskScorer.score w47 ⟨9/10, 1/10, 1/10, 1/10⟩ none).risk_score = 1/2 := by
  rw [concrete_scenario_score]
  norm_num

/-- C3: the accumulator starts at the bias weight (0 when absent) and adds
weight × value over the four visual signals in declaration order and then,
when symptoms are supplied, over the five flags in declaration order; the
recorded details carry the per-signal note with the value appended
two-decimal formatted; the spec's concrete scenario scores 0.50 (not the
0.47 it computes) with level "medium". -/
theorem score_accumulation_order (w : WeightTable) (s : FeatureSignals)
    (sy : SymptomInputs) (name : String) (value : ℚ) :
    (RiskScorer.score w s none).risk_score
        = min (max (accumulator w s none) 0) 1
    ∧ (RiskScorer.score w s (some sy)).risk_score
        = min (max (accumulator w s (some sy)) 0) 1
    ∧ (RiskScorer.score w s none).signals.map SignalDetail.name
        = RiskScorer._visual_signal_names
    ∧ (RiskScorer.score w s (some sy)).signals.map SignalDetail.name
        = RiskScorer._visual_signal_names ++ RiskScorer._symptom_signal_names
    ∧ (RiskScorer.score w s (some sy)).signals.map SignalDetail.note
        = (RiskScorer._visual_signal_names ++ RiskScorer._symptom_signal_names).zipWith
            (fun n v => noteBase n ++ " Signal intensity: " ++ format2 v ++ ".")
            ((RiskScorer.score w s (some sy)).signals.map SignalDetail.value)
    ∧ RiskScorer._signal_note name value
        = noteBase name ++ " Signal intensity: " ++ format2 value ++ "."
    ∧ (RiskScorer.score w47 ⟨9/10, 1/10, 1/10, 1/10⟩ none).risk_score = 1/2
    ∧ (RiskScorer.score w47 ⟨9/10, 1/10, 1/10, 1/10⟩ none).risk_level = "medium" := by
  refine ⟨score_risk_score_eq w s none, score_risk_score_eq w s (some sy),
    ?_, ?_, ?_, rfl, concrete_scenario_score, concrete_scenario_level⟩
  · simp [score_signals_none, RiskScorer._visual_signal_names]
  · simp [score_signals_some, RiskScorer._visual_signal_names,
      RiskScorer._symptom_signal_names]
  · simp [score_signals_some, RiskScorer._visual_signal_names,
      RiskScorer._symptom_signal_names, RiskScorer._signal_note]

/-- Set one of the five symptom flags, in declaration order. -/
def setSymptom (i : Fin 5) (b : Bool) (sy : SymptomInputs) : SymptomInputs :=
  match i with
  | 0 => { sy with reported_pain := b }
  | 1 => { sy with reported_warmth := b }
  | 2 => { sy with reported_swelling := b }
  | 3 => { sy with reported_drainage := b }
  | 4 => { sy with reported_spreading_redness := b }

/-- C5: with non-negative symptom weights, turning any single symptom flag
on never decreases the risk score. -/
theorem symptom_monotonicity (w : WeightTable) (s : FeatureSignals)
    (sy : SymptomInputs) (i : Fin 5)
    (hw : ∀ name ∈ RiskScorer._symptom_signal_names, 0 ≤ dictGet w name 0) :
    (RiskScorer.score w s (some sy)).risk_score
      ≤ (RiskScorer.score w s (some (setSymptom i true sy))).risk_score := by
  have h1 := hw "reported_pain" (by simp [RiskScorer._symptom_signal_names])
  have h2 := hw "reported_warmth" (by simp [RiskScorer._symptom_signal_names])
  have h3 := hw "reported_swelling" (by simp [RiskScorer._symptom_signal_names])
  have h4 := hw "reported_drainage" (by simp [RiskScorer._symptom_signal_names])
  have h5 := hw "reported_spreading_redness" (by simp [RiskScorer._symptom_signal_names])
  rw [score_risk_score_eq, score_risk_score_eq]
  apply clamp_mono
  obtain ⟨p, wa, sw, dr, sp⟩ := sy
  fin_cases i <;>
    simp only [accumulator, setSymptom, symptomVal] <;>
    rcases p <;> rcases wa <;> rcases sw <;> rcases dr <;> rcases sp <;>
    simp <;> linarith

/-- Witness for C5: turning on `reported_pain` from the all-false symptoms
under the all-zero weight table. -/
theorem symptom_monotonicity_witness :
    (RiskScorer.score (fun _ => some 0) ⟨0, 0, 0, 0⟩
        (some ⟨false, false, false, false, false⟩)).risk_score
      ≤ (RiskScorer.score (fun _ => some 0) ⟨0, 0, 0, 0⟩
          (some (setSymptom 0 true ⟨false, false, false, false, false⟩))).risk_score :=
  symptom_monotonicity (fun _ => some 0) ⟨0, 0, 0, 0⟩
    ⟨false, false, false, false, false⟩ 0
    (fun name _ => by simp [dictGet])

/-- C6: scoring is deterministic — equal weight tables, signals and
symptoms give equal results in every field, the explanation included. -/
theorem score_deterministic (w1 w2 : WeightTable) (s1 s2 : FeatureSignals)
    (sy1 sy2 : Option SymptomInputs)
    (hw : ∀ k, w1 k = w2 k) (hs : s1 = s2) (hsy : sy1 = sy2) :
    RiskScorer.score w1 s1 sy1 = RiskScorer.score w2 s2 sy2
    ∧ (RiskScorer.score w1 s1 sy1).explanation
        = (RiskScorer.score w2 s2 sy2).explanation
    ∧ (RiskScorer.score w1 s1 sy1).signals
        = (RiskScorer.score w2 s2 sy2).signals
    ∧ (RiskScorer.score w1 s1 sy1).recommended_next_steps
        = (RiskScorer.score w2 s2 sy2).recommended_next_steps := by
  have hweq : w1 = w2 := funext hw
  subst hweq hs hsy
  exact ⟨rfl, rfl, rfl, rfl⟩

/-- Witness for C6 at a concrete weight table, signals and symptoms. -/
theorem score_deterministic_witness :
    RiskScorer.score (fun _ => none) ⟨0, 0, 0, 0⟩ none
      = RiskScorer.score (fun _ => none) ⟨0, 0, 0, 0⟩ none :=
  (score_deterministic (fun _ => none) (fun _ => none) ⟨0, 0, 0, 0⟩ ⟨0, 0, 0, 0⟩
    none none (fun _ => rfl) rfl rfl).1

/-- The ten weight keys the scorer ever consults. -/
def relevantKeys : List String :=
  "bias" :: RiskScorer._visual_signal_names ++ RiskScorer._symptom_signal_names

lemma score_congr_dictGet (w1 w2 : WeightTable) (s : FeatureSignals)
    (sy : Option SymptomInputs)
    (h : ∀ k ∈ relevantKeys, dictGet w1 k 0 = dictGet w2 k 0) :
    RiskScorer.score w1 s sy = RiskScorer.score w2 s sy := by
  have hb := h "bias" (by simp [relevantKeys])
  have hv1 := h "periwound_redness"
    (by simp [relevantKeys, RiskScorer._visual_signal_names])
  have hv2 := h "exudate_proxy"
    (by simp [relevantKeys, RiskScorer._visual_signal_names])
  have hv3 := h "dark_tissue_proxy"
    (by simp [relevantKeys, RiskScorer._visual_signal_names])
  have hv4 := h "swelling_proxy"
    (by simp [relevantKeys, RiskScorer._visual_signal_names])
  have hs1 := h "reported_pain"
    (by simp [relevantKeys, RiskScorer._symptom_signal_names])
  have hs2 := h "reported_warmth"
    (by simp [relevantKeys, RiskScorer._symptom_signal_names])
  have hs3 := h "reported_swelling"
    (by simp [relevantKeys, RiskScorer._symptom_signal_names])
  have hs4 := h "reported_drainage"
    (by simp [relevantKeys, RiskScorer._symptom_signal_names])
  have hs5 := h "reported_spreading_redness"
    (by simp [relevantKeys, RiskScorer._symptom_signal_names])
  cases sy <;>
    simp [RiskScorer.score, RiskScorer.scoreStep, FeatureSignals.as_dict,
      SymptomInputs.as_dict, hb, hv1, hv2, hv3, hv4, hs1, hs2, hs3, hs4, hs5]

/-- C7: the result depends on the weight table only through the four visual
names, the five symptom names and "bias" — tables agreeing there are
interchangeable — and a key that is absent behaves exactly as weight 0. -/
theorem weight_table_key_dependence :
    (∀ (w1 w2 : WeightTable) (s : FeatureSignals) (sy : Option SymptomInputs),
      (∀ k ∈ relevantKeys, w1 k = w2 k) →
      RiskScorer.score w1 s sy = RiskScorer.score w2 s sy)
    ∧ (∀ (w : WeightTable) (key : String) (s : FeatureSignals)
        (sy : Option SymptomInputs),
      w key = none →
      RiskScorer.score w s sy
        = RiskScorer.score (fun k => if k = key then some 0 else w k) s sy) := by
  constructor
  · intro w1 w2 s sy h
    exact score_congr_dictGet w1 w2 s sy (fun k hk => by rw [dictGet, dictGet, h k hk])
  · intro w key s sy hnone
    apply score_congr_dictGet
    intro k _
    by_cases hkey : k = key
    · subst hkey
      simp [dictGet, hnone]
    · simp [dictGet, hkey]

/-- Witness for C7: the all-absent table against the table holding only an
irrelevant extra key, and dropping an absent key explicitly. -/
theorem weight_table_key_dependence_witness :
    RiskScorer.score (fun _ => none) ⟨0, 0, 0, 0⟩ none
      = RiskScorer.score (fun k => if k = "extra_key" then some 7 else none)
          ⟨0, 0, 0, 0⟩ none
    ∧ RiskScorer.score (fun _ => none) ⟨0, 0, 0, 0⟩ none
      = RiskScorer.score (fun k => if k = "bias" then some 0 else none)
          ⟨0, 0, 0, 0⟩ none := by
  constructor
  · exact weight_table_key_dependence.1 (fun _ => none)
      (fun k => if k = "extra_key" then some 7 else none) ⟨0, 0, 0, 0⟩ none
      (fun k hk => by
        fin_cases hk <;> rfl)
  · exact weight_table_key_dependence.2 (fun _ => none) "bias" ⟨0, 0, 0, 0⟩ none rfl

lemma maskedMean_nonneg {α : Type} (pred : α → Bool) (values : List α)
    (mask : Mask) : 0 ≤ maskedMean pred values mask := by
  unfold maskedMean
  dsimp only
  split_ifs
  · exact le_refl 0
  · exact div_nonneg (Nat.cast_nonneg _) (Nat.cast_nonneg _)

lemma maskedMean_le_one {α : Type} (pred : α → Bool) (values : List α)
    (mask : Mask) : maskedMean pred values mask ≤ 1 := by
  unfold maskedMean
  dsimp only
  split_ifs with h
  · exact zero_le_one
  · rw [div_le_one (by exact_mod_cast Nat.pos_of_ne_zero h)]
    exact_mod_cast List.countP_le_length pred

lemma maskedMean_zero_of_mask_zero {α : Type} (pred : α → Bool)
    (values : List α) (mask : Mask) (h : ∀ x ∈ mask, x = 0) :
    maskedMean pred values mask = 0 := by
  unfold maskedMean
  have hfil : (values.zip mask).filter (fun pm => pm.2 != 0) = [] := by
    rw [List.filter_eq_nil_iff]
    intro a ha
    have hmem := (List.of_mem_zip ha).2
    simp [h a.2 hmem]
  simp [hfil]

/-- C4: every extracted signal lies in `[0, 1]`, and a signal computed over
an all-zero wound mask (respectively ring mask) is exactly 0 rather than a
failure or a non-number. -/
theorem feature_signals_bounded (cv : Cv) (img : Image) :
    (0 ≤ (FeatureExtractor.extract cv img).periwound_redness
      ∧ (FeatureExtractor.extract cv img).periwound_redness ≤ 1)
    ∧ (0 ≤ (FeatureExtractor.extract cv img).exudate_proxy
      ∧ (FeatureExtractor.extract cv img).exudate_proxy ≤ 1)
    ∧ (0 ≤ (FeatureExtractor.extract cv img).dark_tissue_proxy
      ∧ (FeatureExtractor.extract cv img).dark_tissue_proxy ≤ 1)
    ∧ (0 ≤ (FeatureExtractor.extract cv img).swelling_proxy
      ∧ (FeatureExtractor.extract cv img).swelling_proxy ≤ 1)
    ∧ ((∀ x ∈ FeatureExtractor._segment_wound cv img, x = 0) →
      (FeatureExtractor.extract cv img).exudate_proxy = 0
        ∧ (FeatureExtractor.extract cv img).dark_tissue_proxy = 0)
    ∧ ((∀ x ∈ FeatureExtractor._periwound_ring cv
          (FeatureExtractor._segment_wound cv img) 18, x = 0) →
      (FeatureExtractor.extract cv img).periwound_redness = 0
        ∧ (FeatureExtractor.extract cv img).swelling_proxy = 0) := by
  simp only [FeatureExtractor.extract, FeatureExtractor._periwound_redness,
    FeatureExtractor._exudate_proxy, FeatureExtractor._dark_tissue_proxy,
    FeatureExtractor._swelling_proxy]
  refine ⟨⟨maskedMean_nonneg _ _ _, maskedMean_le_one _ _ _⟩,
    ⟨maskedMean_nonneg _ _ _, maskedMean_le_one _ _ _⟩,
    ⟨maskedMean_nonneg _ _ _, maskedMean_le_one _ _ _⟩,
    ⟨maskedMean_nonneg _ _ _, maskedMean_le_one _ _ _⟩, ?_, ?_⟩
  · intro h
    exact ⟨maskedMean_zero_of_mask_zero _ _ _ h, maskedMean_zero_of_mask_zero _ _ _ h⟩
  · intro h
    exact ⟨maskedMean_zero_of_mask_zero _ _ _ h, maskedMean_zero_of_mask_zero _ _ _ h⟩

/-- A concrete instantiation of the external operations, used to evaluate
theorems on explicit inputs; its GrabCut raises `cv2.error` on every
image. -/
def cvTrivial : Cv where
  grabCutLabels := fun _ => .error .err
  morphClose := fun m _ => m
  dilate := fun m _ => m
  erode := fun m _ => m
  bgr2hsv := fun img => img.map (fun p => ⟨p.r, p.g, p.b⟩)
  bgr2gray := fun img => img.map (fun p => p.g)
  gaussianBlur := fun l _ => l
  otsuThreshold := fun _ => 0
  canny := fun l _ _ => l

/-- Witness for C4 on the empty image under `cvTrivial`, where both masks
are all-zero. -/
theorem feature_signals_bounded_witness :
    ((FeatureExtractor.extract cvTrivial []).exudate_proxy = 0
      ∧ (FeatureExtractor.extract cvTrivial []).dark_tissue_proxy = 0)
    ∧ ((FeatureExtractor.extract cvTrivial []).periwound_redness = 0
      ∧ (FeatureExtractor.extract cvTrivial []).swelling_proxy = 0) :=
  ⟨(feature_signals_bounded cvTrivial []).2.2.2.2.1 (by
      intro x hx
      simp [FeatureExtractor._segment_wound, FeatureExtractor._fallback_otsu,
        cvTrivial] at hx),
   (feature_signals_bounded cvTrivial []).2.2.2.2.2 (by
      intro x hx
      simp [FeatureExtractor._periwound_ring, FeatureExtractor._segment_wound,
        FeatureExtractor._fallback_otsu, cvTrivial] at hx)⟩

/-- C9: when GrabCut raises, `_segment_wound` recovers with the Otsu
fallback — grayscale, blur, global threshold, darker side — then the usual
closing; and the embedded `extract` is a total function, so no failure
reaches the caller. -/
theorem segmentation_fallback (cv : Cv) (img : Image) (e : CvError)
    (h : cv.grabCutLabels img = .error e) :
    FeatureExtractor._segment_wound cv img
        = cv.morphClose (FeatureExtractor._fallback_otsu cv img) 5
    ∧ FeatureExtractor._fallback_otsu cv img
        = (cv.gaussianBlur (cv.bgr2gray img) 5).map
            (fun p =>
              if p ≤ cv.otsuThreshold (cv.gaussianBlur (cv.bgr2gray img) 5)
              then 1 else 0)
    ∧ ∃ fs : FeatureSignals, FeatureExtractor.extract cv img = fs := by
  refine ⟨?_, rfl, ⟨_, rfl⟩⟩
  simp [FeatureExtractor._segment_wound, h]

/-- Witness for C9: `cvTrivial`'s GrabCut fails on the empty image and the
fallback is used. -/
theorem segmentation_fallback_witness :
    FeatureExtractor._segment_wound cvTrivial []
      = cvTrivial.morphClose (FeatureExtractor._fallback_otsu cvTrivial []) 5 :=
  (segmentation_fallback cvTrivial [] .err rfl).1

lemma load_weights_error_of_bad (data : List (String × YamlValue))
    (k : String) (v : YamlValue) (hmem : (k, v) ∈ data)
    (hbad : pyFloat v = none) :
    ∃ e, RiskScorer._load_weights data = .error e := by
  induction data with
  | nil => cases hmem
  | cons hd tl ih =>
    rcases List.mem_cons.mp hmem with heq | htl
    · subst heq
      exact ⟨k, by simp [RiskScorer._load_weights, hbad]⟩
    · obtain ⟨e, he⟩ := ih htl
      cases hv : pyFloat hd.2 with
      | none => exact ⟨hd.1, by simp [RiskScorer._load_weights, hv]⟩
      | some q => exact ⟨e, by simp [RiskScorer._load_weights, hv, he, Except.map]⟩

lemma load_weights_ok_all_numeric (data : List (String × YamlValue))
    (m : List (String × ℚ)) (hok : RiskScorer._load_weights data = .ok m) :
    ∀ p ∈ data, ∃ q, pyFloat p.2 = some q := by
  induction data generalizing m with
  | nil => intro p hp; cases hp
  | cons hd tl ih =>
    intro p hp
    rcases List.mem_cons.mp hp with heq | htl
    · subst heq
      cases hv : pyFloat p.2 with
      | none => simp [RiskScorer._load_weights, hv] at hok
      | some q => exact ⟨q, rfl⟩
    · cases hv : pyFloat hd.2 with
      | none => simp [RiskScorer._load_weights, hv] at hok
      | some q =>
        simp only [RiskScorer._load_weights, hv] at hok
        cases hrest : RiskScorer._load_weights tl with
        | error e => rw [hrest] at hok; simp [Except.map] at hok
        | ok t => exact ih t hrest p htl

/-- C8: a non-numeric weight value makes the (post-YAML) weight loading
fail with an error rather than default or coerce; loading succeeds only
when every value coerces to a number; and the scorer itself is a total
function whose level is always one of the three bands, so a constructed
scorer cannot fail on well-typed input. -/
theorem weight_loading_failure :
    (∀ (data : List (String × YamlValue)) (k : String) (v : YamlValue),
      (k, v) ∈ data → pyFloat v = none →
      ∃ e, RiskScorer._load_weights data = .error e)
    ∧ (∀ (data : List (String × YamlValue)) (m : List (String × ℚ)),
      RiskScorer._load_weights data = .ok m →
      ∀ p ∈ data, ∃ q, pyFloat p.2 = some q)
    ∧ (∀ (w : WeightTable) (s : FeatureSignals) (sy : Option SymptomInputs),
      (RiskScorer.score w s sy).risk_level = "low"
        ∨ (RiskScorer.score w s sy).risk_level = "medium"
        ∨ (RiskScorer.score w s sy).risk_level = "high") := by
  refine ⟨load_weights_error_of_bad, load_weights_ok_all_numeric, ?_⟩
  intro w s sy
  rw [score_risk_level_eq]
  unfold RiskScorer._risk_level
  split_ifs
  · right; right; rfl
  · right; left; rfl
  · left; rfl

/-- Witness for C8: loading fails on a table holding the non-numeric value
"not a number", succeeds vacuously on the empty table, and the all-absent
scorer classifies into one of the three bands. -/
theorem weight_loading_failure_witness :
    (∃ e, RiskScorer._load_weights [("periwound_redness", .str "not a number")]
      = .error e)
    ∧ ((RiskScorer.score (fun _ => none) ⟨0, 0, 0, 0⟩ none).risk_level = "low"
      ∨ (RiskScorer.score (fun _ => none) ⟨0, 0, 0, 0⟩ none).risk_level = "medium"
      ∨ (RiskScorer.score (fun _ => none) ⟨0, 0, 0, 0⟩ none).risk_level = "high") :=
  ⟨weight_loading_failure.1 [("periwound_redness", .str "not a number")]
    "periwound_redness" (.str "not a number") (by simp) (by decide),
   weight_loading_failure.2.2 (fun _ => none) ⟨0, 0, 0, 0⟩ none⟩

lemma explanation_visual_only (details : List SignalDetail) (level : String)
    (h2 : details.filter
      (fun d => RiskScorer._symptom_signal_names.contains d.name
        && decide (d.value > 1/2)) = []) :
    RiskScorer._explanation details level
      = "Estimated risk level: " ++ level ++ ". "
        ++ RiskScorer._visual_summary
            (details.filter (fun d => RiskScorer._visual_signal_names.contains d.name))
        ++ " "
        ++ "No concerning symptoms were reported in the questionnaire."
        ++ " This is a triage support estimate, not a diagnosis." := by
  unfold RiskScorer._explanation
  rw [h2]
  rfl

lemma score_none_symptom_filter (w : WeightTable) (s : FeatureSignals) :
    (RiskScorer.score w s none).signals.filter
      (fun d => RiskScorer._symptom_signal_names.contains d.name
        && decide (d.value > 1/2)) = [] := by
  rw [score_signals_none]
  simp [RiskScorer._symptom_signal_names]

lemma score_explanation_eq (w : WeightTable) (s : FeatureSignals)
    (sy : Option SymptomInputs) :
    (RiskScorer.score w s sy).explanation
      = RiskScorer._explanation (RiskScorer.score w s sy).signals
          (RiskScorer.score w s sy).risk_level := rfl

lemma score_congr_none (w1 w2 : WeightTable) (s : FeatureSignals)
    (h : ∀ k ∈ "bias" :: RiskScorer._visual_signal_names, w1 k = w2 k) :
    RiskScorer.score w1 s none = RiskScorer.score w2 s none := by
  have hb := h "bias" (by simp)
  have hv1 := h "periwound_redness" (by simp [RiskScorer._visual_signal_names])
  have hv2 := h "exudate_proxy" (by simp [RiskScorer._visual_signal_names])
  have hv3 := h "dark_tissue_proxy" (by simp [RiskScorer._visual_signal_names])
  have hv4 := h "swelling_proxy" (by simp [RiskScorer._visual_signal_names])
  simp [RiskScorer.score, RiskScorer.scoreStep, FeatureSignals.as_dict,
    dictGet, hb, hv1, hv2, hv3, hv4]

/-- C10: the heuristic model path scores with no symptoms, so the result
carries exactly the four visual details, depends only on the bias and
visual weights, and its explanation contains the fixed
no-concerning-symptoms sentence. -/
theorem predict_no_symptoms (cv : Cv) (w : WeightTable) (img : Image) :
    (HeuristicRiskModel.predict cv w img).signals.map SignalDetail.name
        = RiskScorer._visual_signal_names
    ∧ (HeuristicRiskModel.predict cv w img).signals.length = 4
    ∧ (∀ w2 : WeightTable,
        (∀ k ∈ "bias" :: RiskScorer._visual_signal_names, w k = w2 k) →
        HeuristicRiskModel.predict cv w img = HeuristicRiskModel.predict cv w2 img)
    ∧ ∃ a b : String, (HeuristicRiskModel.predict cv w img).explanation
        = a ++ "No concerning symptoms were reported in the questionnaire." ++ b := by
  refine ⟨?_, ?_, ?_, ?_⟩
  · unfold HeuristicRiskModel.predict
    simp [score_signals_none, RiskScorer._visual_signal_names]
  · unfold HeuristicRiskModel.predict
    simp [score_signals_none]
  · intro w2 hw
    unfold HeuristicRiskModel.predict
    exact score_congr_none w w2 _ hw
  · refine ⟨"Estimated risk level: "
        ++ (HeuristicRiskModel.predict cv w img).risk_level ++ ". "
        ++ RiskScorer._visual_summary
            ((HeuristicRiskModel.predict cv w img).signals.filter
              (fun d => RiskScorer._visual_signal_names.contains d.name))
        ++ " ",
      " This is a triage support estimate, not a diagnosis.", ?_⟩
    unfold HeuristicRiskModel.predict
    rw [score_explanation_eq, explanation_visual_only _ _ (score_none_symptom_filter _ _)]

/-- Witness for C10: the weight-key conjunct applied to the all-absent
table against itself on the empty image. -/
theorem predict_no_symptoms_witness :
    (HeuristicRiskModel.predict cvTrivial (fun _ => none) []).signals.length = 4
    ∧ HeuristicRiskModel.predict cvTrivial (fun _ => none) []
      = HeuristicRiskModel.predict cvTrivial (fun _ => none) [] :=
  ⟨(predict_no_symptoms cvTrivial (fun _ => none) []).2.1,
   (predict_no_symptoms cvTrivial (fun _ => none) []).2.2.1 (fun _ => none)
     (fun _ _ => rfl)⟩

end InfectionRisk
